import Mathlib

/-!
Crypto Tax Monitor — verification of the Token Health & Sustainability Analytics Engine

Shallow embedding of the decision logic of `src/crypto_monitor.py` and
`src/finvesta_integration.py`:

* `check_sustainability`            (crypto_monitor.py, lines 272–311)
* `analyze_token_health`            (crypto_monitor.py, lines 175–225)
* `check_wallet_activity`           (crypto_monitor.py, lines 115–173)
* `get_token_data` (the cache path)  (crypto_monitor.py, lines 40–80)
* `check_token_sustainability`      (finvesta_integration.py, lines 132–179)
* `analyze_multi_token_ecosystem`   (finvesta_integration.py, lines 181–237)

Numbers in the Python source are IEEE floats; the claims under study are about
exact arithmetic relations, signs, thresholds and (crucially) the propagation
of `float('inf')` and of division-by-zero artifacts, not about rounding.  We
therefore model float values as `PyVal`: an exact rational together with the
special values `+inf`, `-inf` and `NaN`, with the operations the source
actually performs given the semantics Python/numpy gives them.  Quantities the
source never sends through a division-by-zero or an infinity are kept as plain
rationals (`ℚ`).
-/

/-- A Python/numpy float value as far as the monitored code distinguishes them:
an exact rational, `+inf`, `-inf`, or `NaN`.  (Rounding is not modelled; no
claim under study concerns it.) -/
inductive PyVal where
  | fin (q : ℚ)
  | pinf
  | ninf
  | nan
deriving DecidableEq, Repr

namespace PyVal

/-- numpy float64 division `a / b` (as in `analyze_token_health`, where the
operands are pandas/numpy scalars): finite quotient when `b ≠ 0`, otherwise
`±inf` by the sign of `a`, and `NaN` for `0/0`.  numpy warns but does not
raise. -/
def pydiv (a b : ℚ) : PyVal :=
  if b ≠ 0 then .fin (a / b)
  else if 0 < a then .pinf
  else if a < 0 then .ninf
  else .nan

/-- Multiplication of a float value by a nonzero rational literal (the
`* 100` scaling in the source; `inf * 100 = inf`). -/
def pymul : PyVal → ℚ → PyVal
  | .fin q, c => .fin (q * c)
  | .pinf, c => if 0 < c then .pinf else if c < 0 then .ninf else .nan
  | .ninf, c => if 0 < c then .ninf else if c < 0 then .pinf else .nan
  | .nan, _ => .nan

/-- Python float addition restricted to the values that occur here:
`inf + inf = inf`, `inf + (-inf) = NaN`, `NaN` absorbs. -/
def pyadd : PyVal → PyVal → PyVal
  | .nan, _ => .nan
  | _, .nan => .nan
  | .fin a, .fin b => .fin (a + b)
  | .fin _, .pinf => .pinf
  | .pinf, .fin _ => .pinf
  | .pinf, .pinf => .pinf
  | .pinf, .ninf => .nan
  | .ninf, .pinf => .nan
  | .ninf, .fin _ => .ninf
  | .fin _, .ninf => .ninf
  | .ninf, .ninf => .ninf

/-- Python `sum(...)` over a list of float values (initial accumulator `0`). -/
def pysum (l : List PyVal) : PyVal := l.foldl pyadd (.fin 0)

/-- Division of a float value by a rational; in the source this is only ever
applied with a strictly positive divisor (the length of a list already known
to be non-empty), which is the case the equations below reflect. -/
def pydivq : PyVal → ℚ → PyVal
  | .fin q, c => .fin (q / c)
  | .pinf, _ => .pinf
  | .ninf, _ => .ninf
  | .nan, _ => .nan

/-- Python `v > c` for a float value `v` and a finite rational `c`
(`inf > c` is `True`, `NaN > c` is `False`). -/
def pygt (v : PyVal) (c : ℚ) : Bool :=
  match v with
  | .fin q => decide (c < q)
  | .pinf => true
  | .ninf => false
  | .nan => false

/-- Python `v < c` for a float value `v` and a finite rational `c`
(`inf < c` is `False`, `-inf < c` is `True`, `NaN < c` is `False`). -/
def pylt (v : PyVal) (c : ℚ) : Bool :=
  match v with
  | .fin q => decide (q < c)
  | .pinf => false
  | .ninf => true
  | .nan => false

end PyVal

/-!
Sustainability Model — `CryptoMonitor.check_sustainability`
(crypto_monitor.py, lines 272–311)
-/

/-- The dictionary returned by `check_sustainability` (the `timestamp` field,
a wall-clock string, is not modelled; no claim concerns it). -/
structure SustainabilityReport where
  token : String
  daily_volume : ℚ
  tax_rate : ℚ
  daily_tax_revenue : ℚ
  total_supply_value : ℚ
  daily_roi : ℚ
  required_payouts : ℚ
  is_sustainable : Bool
  sustainability_ratio : PyVal
deriving DecidableEq, Repr

/-- `CryptoMonitor.check_sustainability` (crypto_monitor.py 286–303):
`daily_tax_revenue = daily_volume * tax_rate`,
`required_payouts = total_supply_value * daily_roi`,
`is_sustainable = daily_tax_revenue >= required_payouts`,
`sustainability_ratio = daily_tax_revenue / required_payouts if
required_payouts > 0 else float('inf')`. -/
def check_sustainability (token_id : String) (daily_volume tax_rate
    total_supply_value daily_roi : ℚ) : SustainabilityReport :=
  let daily_tax_revenue := daily_volume * tax_rate
  let required_payouts := total_supply_value * daily_roi
  { token := token_id
    daily_volume := daily_volume
    tax_rate := tax_rate
    daily_tax_revenue := daily_tax_revenue
    total_supply_value := total_supply_value
    daily_roi := daily_roi
    required_payouts := required_payouts
    is_sustainable := decide (required_payouts ≤ daily_tax_revenue)
    sustainability_ratio :=
      if 0 < required_payouts then .fin (daily_tax_revenue / required_payouts)
      else .pinf }

example :
    (check_sustainability "finvesta" 1000000 (1/20) 10000000 (1/100)).sustainability_ratio
      = .fin (1/2) := by norm_num [check_sustainability]

example :
    (check_sustainability "finvesta" 2000000 (1/20) 10000000 (1/100)).is_sustainable
      = true := by norm_num [check_sustainability]

/-!
Token Health Evaluator — `CryptoMonitor.analyze_token_health`
(crypto_monitor.py, lines 175–225)

The evaluator consumes the price/volume time series that
`self.get_token_data(token_id)` produced; we pass that already-fetched value
(`Option`, `None` for a failed fetch) as an argument.
-/

/-- One row of the merged price/volume DataFrame (`timestamp`, `price`,
`volume`; the redundant `date` column is the timestamp again). -/
structure TimePoint where
  timestamp : ℤ
  price : ℚ
  volume : ℚ
deriving DecidableEq, Repr

/-- `series.iloc[-1]` on a column, guarded non-empty at every use site (the
default is never reached there). -/
def listLast (l : List ℚ) : ℚ := l.getLastD 0

/-- `series.iloc[0]` on a column, guarded non-empty at every use site. -/
def listFirst (l : List ℚ) : ℚ := l.headD 0

/-- pandas `Series.mean()`; every use site guards the list non-empty
(pandas would give `NaN` on an empty column, a case that cannot reach the
arithmetic below). -/
def mean (l : List ℚ) : ℚ := l.sum / l.length

/-- The square of pandas `Series.std()`: the *sample* variance, i.e. the sum
of squared deviations from the mean divided by `n - 1` (pandas' default
`ddof=1`).  For `n = 1` pandas yields `NaN`; under Lean's `x / 0 = 0`
convention this definition yields `0` there — no theorem below inspects the
value at `n = 1`. -/
def svar (l : List ℚ) : ℚ :=
  ((l.map (fun x => (x - mean l) ^ 2)).sum) / ((l.length : ℚ) - 1)

/-- The square of the *population* standard deviation (divisor `n`); used only
to state what the specification asks for, so that it can be compared with what
the code computes. -/
def pvar (l : List ℚ) : ℚ :=
  ((l.map (fun x => (x - mean l) ^ 2)).sum) / (l.length : ℚ)

/-- Modelled from the spec: `price_volatility_pct` = population standard
deviation of price / avg_price × 100 (spec §4.2).  Stated over the reals
because a standard deviation of rational data is in general irrational. -/
noncomputable def specPopVolatility (prices : List ℚ) : ℝ :=
  Real.sqrt (pvar prices) / (mean prices : ℚ) * 100

/-- The dictionary returned by `analyze_token_health` (the wall-clock
`timestamp` field is not modelled).  `price_change_30d` and
`volume_change_30d` are float values because the source divides by the first
price/volume with no zero guard; `price_volatility` is a real number because
it is a square root. -/
structure TokenHealthReport where
  token : String
  current_price : ℚ
  price_change_30d : PyVal
  price_volatility : ℝ
  current_volume : ℚ
  volume_change_30d : PyVal
  volume_health : String

/-- `CryptoMonitor.analyze_token_health` (crypto_monitor.py 185–225): rejects
only a missing or empty series (`data is None or len(data) == 0`), then
computes last/mean/first statistics, the strict volume-health thresholds
(`< avg * 0.5`, `> avg * 2`, in that order), and
`price_volatility = data["price"].std() / avg_price * 100` with pandas'
sample (`ddof=1`) standard deviation. -/
noncomputable def analyze_token_health (token_id : String)
    (data : Option (List TimePoint)) : Option TokenHealthReport :=
  match data with
  | none => none
  | some pts =>
    if pts = [] then none
    else
      let prices := pts.map TimePoint.price
      let volumes := pts.map TimePoint.volume
      let current_price := listLast prices
      let avg_price := mean prices
      let price_change :=
        PyVal.pymul (PyVal.pydiv (current_price - listFirst prices) (listFirst prices)) 100
      let current_volume := listLast volumes
      let avg_volume := mean volumes
      let volume_change :=
        PyVal.pymul (PyVal.pydiv (current_volume - listFirst volumes) (listFirst volumes)) 100
      let volume_health :=
        if current_volume < avg_volume * (1/2) then "Warning: Volume drop"
        else if current_volume > avg_volume * 2 then "High volume activity"
        else "Normal"
      let price_volatility : ℝ := Real.sqrt (svar prices) / (avg_price : ℚ) * 100
      some { token := token_id
             current_price := current_price
             price_change_30d := price_change
             price_volatility := price_volatility
             current_volume := current_volume
             volume_change_30d := volume_change
             volume_health := volume_health }

example :
    (analyze_token_health "hex" (some [⟨0, 5, 7⟩])).isSome = true := by
  simp [analyze_token_health]

example :
    (analyze_token_health "hex"
      (some [⟨0, 1, 4⟩, ⟨1, 3, 4⟩])).map TokenHealthReport.volume_health
      = some "Normal" := by
  norm_num [analyze_token_health, listLast, listFirst, mean]
  exact ⟨_, ⟨by simp, rfl⟩, rfl⟩

/-!
Wallet Activity Analyzer — `CryptoMonitor.check_wallet_activity`
(crypto_monitor.py, lines 115–173)

The analyzer consumes the transaction list `get_pulsechain_wallet` produced;
we pass that list directly (the `None`/empty guard at line 135 collapses the
two no-data cases into one `none` result, exactly as the source returns
`None` for both).
-/

/-- One row of the transaction DataFrame as used by the analyzer: `hash`,
`value_eth` (value / 10^18), `from`, `to`, `timeStamp` (`from`/`to` are named
`from_address`/`to_address` here because `from` is reserved).  The raw `value`
and the derived `datetime` columns carry no extra information used by any
claim. -/
structure Transaction where
  hash : String
  value_eth : ℚ
  from_address : String
  to_address : String
  timeStamp : ℤ
deriving DecidableEq, Repr

/-- Python `str.lower()` as applied to wallet addresses (per-character
lowercasing; addresses are plain ASCII hex strings). -/
def pyLower (s : String) : String := ⟨s.data.map Char.toLower⟩

/-- The summary dictionary returned by `check_wallet_activity`;
`latest_transaction` keeps the whole row (the source copies its fields). -/
structure WalletActivitySummary where
  wallet : String
  total_transactions : ℕ
  incoming_transactions : ℕ
  outgoing_transactions : ℕ
  large_transactions : ℕ
  latest_transaction : Transaction
deriving DecidableEq, Repr

/-- `CryptoMonitor.check_wallet_activity` (crypto_monitor.py 134–173) for a
resolved wallet address: `None` when the fetched list is missing/empty;
otherwise `latest_tx = transactions.iloc[0]` (the code's comment: "Assuming
transactions are sorted by timestamp (newest first)"), incoming = rows whose
lowercased `to` equals the lowercased address, outgoing likewise on `from`,
large = rows with `abs(value_eth) > threshold`. -/
def check_wallet_activity (wallet_address : String)
    (transactions : Option (List Transaction)) (threshold : ℚ) :
    Option WalletActivitySummary :=
  match transactions with
  | none => none
  | some txs =>
    match txs with
    | [] => none
    | latest_tx :: _ =>
      some { wallet := wallet_address
             total_transactions := txs.length
             incoming_transactions :=
               (txs.filter (fun tx =>
                 pyLower tx.to_address = pyLower wallet_address)).length
             outgoing_transactions :=
               (txs.filter (fun tx =>
                 pyLower tx.from_address = pyLower wallet_address)).length
             large_transactions :=
               (txs.filter (fun tx => threshold < |tx.value_eth|)).length
             latest_transaction := latest_tx }

/-- Modelled from the spec: `latest_transaction` = entry with the maximum
timestamp, ties broken by first occurrence in input order (spec §4.3).  The
fold replaces the current best only on a strictly larger timestamp, so the
first occurrence of the maximum wins. -/
def latestByTimestamp (l : List Transaction) : Option Transaction :=
  l.foldl (fun acc tx =>
    match acc with
    | none => some tx
    | some best => if best.timeStamp < tx.timeStamp then some tx else some best)
    none

example :
    latestByTimestamp
        [⟨"a", 1, "x", "y", 10⟩, ⟨"b", 1, "x", "y", 50⟩, ⟨"c", 1, "x", "y", 50⟩]
      = some ⟨"b", 1, "x", "y", 50⟩ := by decide

example :
    (check_wallet_activity "0xW"
        (some [⟨"a", 1, "0xw", "0xw", 10⟩]) (1/20)).map
        WalletActivitySummary.incoming_transactions
      = some 1 := by decide

/-!
Series Cache — `CryptoMonitor.get_token_data`
(crypto_monitor.py, lines 40–80)

The external HTTP request is abstracted as a `FetchOutcome` argument: what
`requests.get` + JSON parsing would produce for this key during this call.
The cache (`self.data_cache`, a dict keyed by the string
`f"{token_id}_{days}_{vs_currency}"`) is passed and returned explicitly.  The
returned `Bool` records whether the fetch was performed (the source performs
it exactly when the key is absent from the cache).
-/

/-- Outcome of the external market-data request: a 200 response whose parsed
series is `data` (possibly empty), or a failure (non-200 status or a raised
exception), which the source turns into `None`. -/
inductive FetchOutcome where
  | success (data : List TimePoint)
  | failure
deriving DecidableEq, Repr

/-- The cache key `f"{token_id}_{days}_{vs_currency}"` (crypto_monitor.py 52). -/
def cacheKey (token_id : String) (days : ℕ) (vs_currency : String) : String :=
  token_id ++ "_" ++ toString days ++ "_" ++ vs_currency

/-- `CryptoMonitor.get_token_data` (crypto_monitor.py 52–80): on a cache hit
the cached series is returned and no fetch happens; on a miss the fetch runs —
a successful (200) response is stored in the cache unconditionally (lines
62–74; there is no emptiness check) and returned, while a failure stores
nothing and returns `None`.  Result: (returned value, cache after the call,
whether the fetch was invoked). -/
def get_token_data (cache : List (String × List TimePoint))
    (token_id : String) (days : ℕ) (vs_currency : String)
    (fetch : FetchOutcome) :
    Option (List TimePoint) × List (String × List TimePoint) × Bool :=
  let key := cacheKey token_id days vs_currency
  match cache.lookup key with
  | some cached => (some cached, cache, false)
  | none =>
    match fetch with
    | .success data => (some data, (key, data) :: cache, true)
    | .failure => (none, cache, true)

example :
    get_token_data [] "hex" 30 "usd" (.success [])
      = (some [], [("hex_30_usd", [])], true) := by decide

/-!
Finvesta integration — `FinvestaMonitor.check_token_sustainability`
and `FinvestaMonitor.analyze_multi_token_ecosystem`
(finvesta_integration.py, lines 132–237)

The per-token configuration dictionaries `self.tax_rates` and
`self.roi_expectations` are passed as maps with optional entries (`Option`-valued
functions); `dict.get(token_id, default)` becomes `getD`.  Each token's
already-fetched series (`self.get_token_data(token_id)`, which the session
cache makes identical across the two lookups the ecosystem analysis performs
for the same token) is supplied by an environment `env`.
-/

/-- `FinvestaMonitor.check_token_sustainability` (finvesta_integration.py
143–179): `None` on missing/empty data; otherwise feeds
`check_sustainability` with `daily_volume = avg_daily_volume` (mean of the
volume column), `tax_rate = self.tax_rates.get(token_id, 0.05)`,
`daily_roi = self.roi_expectations.get(token_id, 0.01)`, and
`total_supply_value = avg_daily_volume * 10` when `estimate_supply` (the
default) else the constant `10000000`. -/
def check_token_sustainability (tax_rates roi_expectations : String → Option ℚ)
    (token_id : String) (estimate_supply : Bool)
    (data : Option (List TimePoint)) : Option SustainabilityReport :=
  match data with
  | none => none
  | some pts =>
    if pts = [] then none
    else
      let avg_daily_volume := mean (pts.map TimePoint.volume)
      let tax_rate := (tax_rates token_id).getD (1/20)
      let daily_roi := (roi_expectations token_id).getD (1/100)
      let total_supply_value :=
        if estimate_supply then avg_daily_volume * 10 else 10000000
      some (check_sustainability token_id avg_daily_volume tax_rate
        total_supply_value daily_roi)

/-- The `ecosystem_metrics` part of the dictionary returned by
`analyze_multi_token_ecosystem` (the per-token sub-reports and the wall-clock
timestamp are not modelled; the metrics are what the claims concern). -/
structure EcosystemMetrics where
  total_volume : ℚ
  avg_price_change : PyVal
  sustainability_score : PyVal
  health_status : String

/-- `FinvestaMonitor.analyze_multi_token_ecosystem` (finvesta_integration.py
191–237): per token, a successful health analysis contributes
`current_volume` to `total_volume` and `price_change_30d` to the
`price_changes` list; a successful sustainability check contributes its
`sustainability_ratio` to `sustainability_scores` exactly when
`sustainability["sustainability_ratio"] > 0` (line 221; note `inf > 0` is
`True` for Python floats).  The averages divide by the respective list length
when non-empty and are `0` otherwise, and `health_status` applies the
`< 1` / `< 1.5` thresholds to the score. -/
noncomputable def analyze_multi_token_ecosystem
    (tax_rates roi_expectations : String → Option ℚ)
    (env : String → Option (List TimePoint)) (token_ids : List String) :
    EcosystemMetrics :=
  let healths := token_ids.filterMap (fun t => analyze_token_health t (env t))
  let total_volume := (healths.map TokenHealthReport.current_volume).sum
  let price_changes := healths.map TokenHealthReport.price_change_30d
  let sustainability_scores := token_ids.filterMap (fun t =>
    match check_token_sustainability tax_rates roi_expectations t true (env t) with
    | some s =>
      if (s.sustainability_ratio.pygt 0) then some s.sustainability_ratio else none
    | none => none)
  let avg_price_change :=
    if price_changes = [] then .fin 0
    else (PyVal.pysum price_changes).pydivq price_changes.length
  let sustainability_score :=
    if sustainability_scores = [] then .fin 0
    else (PyVal.pysum sustainability_scores).pydivq sustainability_scores.length
  let health_status :=
    if sustainability_score.pylt 1 then "Critical: Unsustainable"
    else if sustainability_score.pylt (3/2) then "Warning: Marginally Sustainable"
    else "Healthy: Sustainable"
  { total_volume := total_volume
    avg_price_change := avg_price_change
    sustainability_score := sustainability_score
    health_status := health_status }

example :
    (check_token_sustainability (fun _ => none) (fun _ => none) "finvesta" true
        (some [⟨0, 1, 0⟩, ⟨1, 1, 0⟩])).map SustainabilityReport.sustainability_ratio
      = some .pinf := by
  norm_num [check_token_sustainability, check_sustainability, mean]
  exact ⟨_, ⟨by simp, rfl⟩, rfl⟩

/-!
Theorems

Each claim of the specification is settled below; counterexamples are stated
at explicit concrete inputs.
-/

/-- Claim C2, counterexample. The claim asserts that whenever
`required_payouts = 0` the token is sustainable.  At
`daily_volume = -1, tax_rate = 0.05, total_supply_value = 10, daily_roi = 0`
the code computes `required_payouts = 0` and `sustainability_ratio = +inf`,
but `is_sustainable = (-0.05 >= 0) = False`. -/
theorem C2_counterexample :
    (check_sustainability "finvesta" (-1) (1/20) 10 0).required_payouts = 0 ∧
    (check_sustainability "finvesta" (-1) (1/20) 10 0).sustainability_ratio = .pinf ∧
    (check_sustainability "finvesta" (-1) (1/20) 10 0).is_sustainable = false := by
  norm_num [check_sustainability]

/-- Claim C2, amended. `check_sustainability` computes
`daily_tax_revenue = daily_volume × tax_rate`,
`required_payouts = total_supply_value × daily_roi`,
`is_sustainable = (daily_tax_revenue ≥ required_payouts)` unconditionally,
`sustainability_ratio = daily_tax_revenue / required_payouts` when
`required_payouts > 0` and `+inf` when `required_payouts = 0`; at the
boundary `daily_tax_revenue = required_payouts > 0` the token is sustainable
with ratio exactly `1`; and when `required_payouts = 0` the token is
sustainable iff `daily_tax_revenue ≥ 0` (not unconditionally). -/
theorem C2_sustainability_model (token_id : String)
    (daily_volume tax_rate total_supply_value daily_roi : ℚ) :
    (check_sustainability token_id daily_volume tax_rate total_supply_value
        daily_roi).daily_tax_revenue = daily_volume * tax_rate ∧
    (check_sustainability token_id daily_volume tax_rate total_supply_value
        daily_roi).required_payouts = total_supply_value * daily_roi ∧
    ((check_sustainability token_id daily_volume tax_rate total_supply_value
        daily_roi).is_sustainable = true ↔
      total_supply_value * daily_roi ≤ daily_volume * tax_rate) ∧
    (0 < total_supply_value * daily_roi →
      (check_sustainability token_id daily_volume tax_rate total_supply_value
        daily_roi).sustainability_ratio
        = .fin (daily_volume * tax_rate / (total_supply_value * daily_roi))) ∧
    (total_supply_value * daily_roi = 0 →
      (check_sustainability token_id daily_volume tax_rate total_supply_value
        daily_roi).sustainability_ratio = .pinf) ∧
    (daily_volume * tax_rate = total_supply_value * daily_roi →
      0 < total_supply_value * daily_roi →
      (check_sustainability token_id daily_volume tax_rate total_supply_value
          daily_roi).sustainability_ratio = .fin 1 ∧
      (check_sustainability token_id daily_volume tax_rate total_supply_value
          daily_roi).is_sustainable = true) ∧
    (total_supply_value * daily_roi = 0 →
      ((check_sustainability token_id daily_volume tax_rate total_supply_value
          daily_roi).is_sustainable = true ↔ 0 ≤ daily_volume * tax_rate)) := by
  refine ⟨rfl, rfl, by simp [check_sustainability], ?_, ?_, ?_, ?_⟩
  · intro h
    simp [check_sustainability, if_pos h]
  · intro h
    simp [check_sustainability, h]
  · intro heq h
    constructor
    · simp [check_sustainability, if_pos h, heq, div_self (ne_of_gt h)]
    · simp [check_sustainability, heq]
  · intro h
    simp [check_sustainability, h]

/-- Claim C2, witness. The spec's boundary instance: volume 2,000,000, tax 5%,
supply value 10,000,000, ROI 1% gives ratio exactly 1 and a sustainable
verdict. -/
theorem C2_witness :
    (check_sustainability "finvesta" 2000000 (1/20) 10000000
        (1/100)).sustainability_ratio = .fin 1 ∧
    (check_sustainability "finvesta" 2000000 (1/20) 10000000
        (1/100)).is_sustainable = true :=
  (C2_sustainability_model "finvesta" 2000000 (1/20) 10000000 (1/100)).2.2.2.2.2.1
    (by norm_num) (by norm_num)

/-- Claim C5, counterexample. The claim asserts a series with exactly one point
is rejected with no report.  The code's guard (crypto_monitor.py 186) is only
`data is None or len(data) == 0`, so a one-point series is evaluated and a
report is produced. -/
theorem C5_counterexample :
    (analyze_token_health "hex" (some [⟨0, 5, 7⟩])).isSome = true := by
  simp [analyze_token_health]

/-- Claim C5, amended. Only a missing (`None`) or empty series is rejected with
no report; every non-empty series — a one-point series included — is
evaluated and yields a report. -/
theorem C5_empty_guard :
    (∀ token_id : String, analyze_token_health token_id none = none) ∧
    (∀ token_id : String, analyze_token_health token_id (some []) = none) ∧
    (∀ (token_id : String) (p : TimePoint) (ps : List TimePoint),
      (analyze_token_health token_id (some (p :: ps))).isSome = true) := by
  refine ⟨fun _ => rfl, fun _ => by simp [analyze_token_health], ?_⟩
  intro token_id p ps
  simp [analyze_token_health]

/-- Claim C6, counterexample. The claim asserts a ≥2-point series whose first
price is 0 yields a classified "invalid series" error and no report.  The
code has no such check: on `[(price 0), (price 2)]` it produces a report,
whose `price_change_pct` is the float artifact `+inf`
(`(2 - 0) / 0 * 100`). -/
theorem C6_counterexample :
    (analyze_token_health "hex" (some [⟨0, 0, 1⟩, ⟨1, 2, 1⟩])).isSome = true ∧
    (analyze_token_health "hex" (some [⟨0, 0, 1⟩, ⟨1, 2, 1⟩])).map
        TokenHealthReport.price_change_30d = some .pinf := by
  constructor
  · simp [analyze_token_health]
  · norm_num [analyze_token_health, listFirst, listLast, PyVal.pydiv, PyVal.pymul]
    exact ⟨_, ⟨by simp, rfl⟩, rfl⟩

/-- Shape of the report `analyze_token_health` produces on any non-empty
series: each field as a function of the price/volume columns. -/
theorem analyze_token_health_eq (token_id : String) (pts : List TimePoint)
    (hne : pts ≠ []) :
    analyze_token_health token_id (some pts) = some
      { token := token_id
        current_price := listLast (pts.map TimePoint.price)
        price_change_30d :=
          PyVal.pymul (PyVal.pydiv
            (listLast (pts.map TimePoint.price) - listFirst (pts.map TimePoint.price))
            (listFirst (pts.map TimePoint.price))) 100
        price_volatility :=
          Real.sqrt (svar (pts.map TimePoint.price))
            / (mean (pts.map TimePoint.price) : ℚ) * 100
        current_volume := listLast (pts.map TimePoint.volume)
        volume_change_30d :=
          PyVal.pymul (PyVal.pydiv
            (listLast (pts.map TimePoint.volume) - listFirst (pts.map TimePoint.volume))
            (listFirst (pts.map TimePoint.volume))) 100
        volume_health :=
          if listLast (pts.map TimePoint.volume)
              < mean (pts.map TimePoint.volume) * (1/2) then "Warning: Volume drop"
          else if mean (pts.map TimePoint.volume) * 2
              < listLast (pts.map TimePoint.volume) then "High volume activity"
          else "Normal" } := by
  simp [analyze_token_health, hne]

/-- Claim C6, amended. A zero first price is not detected: the evaluator still
produces a report, and its `price_change_30d` is the float division artifact —
`+inf` when the last price is positive, `-inf` when negative, `NaN` when the
last price is also 0 — never a finite value or a classified error. -/
theorem C6_zero_first_price (token_id : String) (pts : List TimePoint)
    (hne : pts ≠ []) (h0 : listFirst (pts.map TimePoint.price) = 0) :
    ∃ rep, analyze_token_health token_id (some pts) = some rep ∧
      (0 < listLast (pts.map TimePoint.price) → rep.price_change_30d = .pinf) ∧
      (listLast (pts.map TimePoint.price) < 0 → rep.price_change_30d = .ninf) ∧
      (listLast (pts.map TimePoint.price) = 0 → rep.price_change_30d = .nan) := by
  refine ⟨_, analyze_token_health_eq token_id pts hne, ?_, ?_, ?_⟩
  · intro h
    simp [h0, PyVal.pydiv, PyVal.pymul, h]
  · intro h
    simp [h0, PyVal.pydiv, PyVal.pymul, h, h.asymm]
  · intro h
    simp [h0, PyVal.pydiv, PyVal.pymul, h]

/-- Claim C6, witness. At the two-point series with prices `0` then `2` the
report exists and its price change is `+inf`. -/
theorem C6_witness :
    ∃ rep, analyze_token_health "hex" (some [⟨0, 0, 1⟩, ⟨1, 2, 3⟩]) = some rep ∧
      (0 < listLast (([⟨0, 0, 1⟩, ⟨1, 2, 3⟩] : List TimePoint).map TimePoint.price) →
        rep.price_change_30d = .pinf) ∧
      (listLast (([⟨0, 0, 1⟩, ⟨1, 2, 3⟩] : List TimePoint).map TimePoint.price) < 0 →
        rep.price_change_30d = .ninf) ∧
      (listLast (([⟨0, 0, 1⟩, ⟨1, 2, 3⟩] : List TimePoint).map TimePoint.price) = 0 →
        rep.price_change_30d = .nan) :=
  C6_zero_first_price "hex" [⟨0, 0, 1⟩, ⟨1, 2, 3⟩] (by simp)
    (by norm_num [listFirst])

/-- Claim C8, counterexample. The claim's biconditional "HighActivity exactly
when `current_volume > 2.0 × avg_volume`" fails when the two strict
conditions overlap, which happens for negative average volume: on volumes
`[-3, -2]` the average is `-5/2`, the condition `current > 2 × avg`
(`-2 > -5`) holds, yet the branch order makes the code classify
"Warning: Volume drop" (since `-2 < -5/4` as well). -/
theorem C8_counterexample :
    (analyze_token_health "hex" (some [⟨0, 1, -3⟩, ⟨1, 1, -2⟩])).map
        TokenHealthReport.volume_health = some "Warning: Volume drop" ∧
    mean (([⟨0, 1, -3⟩, ⟨1, 1, -2⟩] : List TimePoint).map TimePoint.volume) * 2
      < listLast (([⟨0, 1, -3⟩, ⟨1, 1, -2⟩] : List TimePoint).map TimePoint.volume) := by
  constructor
  · rw [analyze_token_health_eq "hex" _ (by simp)]
    norm_num [listLast, listFirst, mean]
  · norm_num [listLast, mean]

/-- Claim C8, amended. `volume_health` is always exactly one of the three
values; "VolumeDrop" holds exactly when `current < 0.5 × avg` (strict), and —
because the VolumeDrop branch is tested first — "HighActivity" holds exactly
when `current ≥ 0.5 × avg` and `current > 2 × avg` (strict).  Whenever
`avg_volume ≥ 0` (always the case for genuine trading volumes) the two
conditions cannot overlap and the claim's plain biconditional for
HighActivity also holds; the boundary cases `current = 0.5 × avg` and
`current = 2 × avg` are never classified VolumeDrop / HighActivity
respectively. -/
theorem C8_volume_health (token_id : String) (pts : List TimePoint)
    (hne : pts ≠ []) :
    ∃ rep, analyze_token_health token_id (some pts) = some rep ∧
      (rep.volume_health = "Warning: Volume drop" ∨
        rep.volume_health = "High volume activity" ∨
        rep.volume_health = "Normal") ∧
      (rep.volume_health = "Warning: Volume drop" ↔
        listLast (pts.map TimePoint.volume)
          < mean (pts.map TimePoint.volume) * (1/2)) ∧
      (rep.volume_health = "High volume activity" ↔
        (¬ listLast (pts.map TimePoint.volume)
            < mean (pts.map TimePoint.volume) * (1/2) ∧
          mean (pts.map TimePoint.volume) * 2
            < listLast (pts.map TimePoint.volume))) ∧
      (rep.volume_health = "Normal" ↔
        (¬ listLast (pts.map TimePoint.volume)
            < mean (pts.map TimePoint.volume) * (1/2) ∧
          ¬ mean (pts.map TimePoint.volume) * 2
            < listLast (pts.map TimePoint.volume))) ∧
      (0 ≤ mean (pts.map TimePoint.volume) →
        (rep.volume_health = "High volume activity" ↔
          mean (pts.map TimePoint.volume) * 2
            < listLast (pts.map TimePoint.volume))) ∧
      (listLast (pts.map TimePoint.volume)
          = mean (pts.map TimePoint.volume) * (1/2) →
        rep.volume_health ≠ "Warning: Volume drop") ∧
      (listLast (pts.map TimePoint.volume) = mean (pts.map TimePoint.volume) * 2 →
        rep.volume_health ≠ "High volume activity") := by
  refine ⟨_, analyze_token_health_eq token_id pts hne, ?_⟩
  split_ifs with h1 h2
  · exact ⟨Or.inl rfl,
      iff_of_true rfl h1,
      iff_of_false (by simp) (fun h => h.1 h1),
      iff_of_false (by simp) (fun h => h.1 h1),
      fun ha => iff_of_false (by simp)
        (fun hlt => lt_asymm hlt (lt_of_lt_of_le h1 (by linarith))),
      fun heq => by rw [heq] at h1; exact absurd h1 (lt_irrefl _),
      fun _ => by simp⟩
  · exact ⟨Or.inr (Or.inl rfl),
      iff_of_false (by simp) h1,
      iff_of_true rfl ⟨h1, h2⟩,
      iff_of_false (by simp) (fun h => h.2 h2),
      fun _ => iff_of_true rfl h2,
      fun _ => by simp,
      fun heq => by rw [heq] at h2; exact absurd h2 (lt_irrefl _)⟩
  · exact ⟨Or.inr (Or.inr rfl),
      iff_of_false (by simp) h1,
      iff_of_false (by simp) (fun h => h2 h.2),
      iff_of_true rfl ⟨h1, h2⟩,
      fun _ => iff_of_false (by simp) h2,
      fun _ => by simp,
      fun _ => by simp⟩

/-- Claim C8, witness. The constant-volume two-point series is classified
"Normal", and both boundary implications are available at it. -/
theorem C8_witness :
    ∃ rep, analyze_token_health "hex" (some [⟨0, 1, 4⟩, ⟨1, 1, 4⟩]) = some rep ∧
      (rep.volume_health = "Warning: Volume drop" ∨
        rep.volume_health = "High volume activity" ∨
        rep.volume_health = "Normal") ∧
      (rep.volume_health = "Warning: Volume drop" ↔
        listLast (([⟨0, 1, 4⟩, ⟨1, 1, 4⟩] : List TimePoint).map TimePoint.volume)
          < mean (([⟨0, 1, 4⟩, ⟨1, 1, 4⟩] : List TimePoint).map TimePoint.volume) * (1/2)) ∧
      (rep.volume_health = "High volume activity" ↔
        (¬ listLast (([⟨0, 1, 4⟩, ⟨1, 1, 4⟩] : List TimePoint).map TimePoint.volume)
            < mean (([⟨0, 1, 4⟩, ⟨1, 1, 4⟩] : List TimePoint).map TimePoint.volume) * (1/2) ∧
          mean (([⟨0, 1, 4⟩, ⟨1, 1, 4⟩] : List TimePoint).map TimePoint.volume) * 2
            < listLast (([⟨0, 1, 4⟩, ⟨1, 1, 4⟩] : List TimePoint).map TimePoint.volume))) ∧
      (rep.volume_health = "Normal" ↔
        (¬ listLast (([⟨0, 1, 4⟩, ⟨1, 1, 4⟩] : List TimePoint).map TimePoint.volume)
            < mean (([⟨0, 1, 4⟩, ⟨1, 1, 4⟩] : List TimePoint).map TimePoint.volume) * (1/2) ∧
          ¬ mean (([⟨0, 1, 4⟩, ⟨1, 1, 4⟩] : List TimePoint).map TimePoint.volume) * 2
            < listLast (([⟨0, 1, 4⟩, ⟨1, 1, 4⟩] : List TimePoint).map TimePoint.volume))) ∧
      (0 ≤ mean (([⟨0, 1, 4⟩, ⟨1, 1, 4⟩] : List TimePoint).map TimePoint.volume) →
        (rep.volume_health = "High volume activity" ↔
          mean (([⟨0, 1, 4⟩, ⟨1, 1, 4⟩] : List TimePoint).map TimePoint.volume) * 2
            < listLast (([⟨0, 1, 4⟩, ⟨1, 1, 4⟩] : List TimePoint).map TimePoint.volume))) ∧
      (listLast (([⟨0, 1, 4⟩, ⟨1, 1, 4⟩] : List TimePoint).map TimePoint.volume)
          = mean (([⟨0, 1, 4⟩, ⟨1, 1, 4⟩] : List TimePoint).map TimePoint.volume) * (1/2) →
        rep.volume_health ≠ "Warning: Volume drop") ∧
      (listLast (([⟨0, 1, 4⟩, ⟨1, 1, 4⟩] : List TimePoint).map TimePoint.volume)
          = mean (([⟨0, 1, 4⟩, ⟨1, 1, 4⟩] : List TimePoint).map TimePoint.volume) * 2 →
        rep.volume_health ≠ "High volume activity") :=
  C8_volume_health "hex" [⟨0, 1, 4⟩, ⟨1, 1, 4⟩] (by simp)

/-- Claim C3, counterexample. The claim says `price_volatility_pct` is the
*population* standard deviation over the mean times 100.  On prices `[1, 3]`
the population standard deviation is `1` (so the spec value is `50`), but the
code uses pandas' default sample standard deviation (`ddof=1`), giving
`sqrt 2`, i.e. a volatility of `50 * sqrt 2 ≈ 70.7`. -/
theorem C3_counterexample :
    (analyze_token_health "hex" (some [⟨0, 1, 4⟩, ⟨1, 3, 4⟩])).map
        TokenHealthReport.price_volatility
      ≠ some (specPopVolatility [1, 3]) := by
  rw [analyze_token_health_eq "hex" _ (by simp)]
  simp only [Option.map_some, ne_eq, Option.some.injEq]
  have hsvar : svar (([⟨0, 1, 4⟩, ⟨1, 3, 4⟩] : List TimePoint).map TimePoint.price)
      = 2 := by
    norm_num [svar, mean]
  have hpvar : pvar [(1 : ℚ), 3] = 1 := by norm_num [pvar, mean]
  have hmean : mean (([⟨0, 1, 4⟩, ⟨1, 3, 4⟩] : List TimePoint).map TimePoint.price)
      = 2 := by
    norm_num [mean]
  have hmean2 : mean [(1 : ℚ), 3] = 2 := by norm_num [mean]
  rw [specPopVolatility, hsvar, hpvar, hmean, hmean2]
  intro habs
  push_cast at habs
  rw [Real.sqrt_one] at habs
  simp only [Option.map_some', Option.some.injEq] at habs
  nlinarith [Real.sq_sqrt (by norm_num : (0:ℝ) ≤ 2), Real.sqrt_nonneg (2:ℝ)]

/-- Claim C3, amended. For every series accepted by the evaluator with at least
2 points and positive mean price, `price_volatility` equals the *sample*
(`ddof = 1`, pandas default) standard deviation of the prices divided by the
mean price, times 100 — and it is always nonnegative. -/
theorem C3_volatility (token_id : String) (pts : List TimePoint)
    (hlen : 2 ≤ pts.length) (hmean : 0 < mean (pts.map TimePoint.price)) :
    ∃ rep, analyze_token_health token_id (some pts) = some rep ∧
      rep.price_volatility
        = Real.sqrt (svar (pts.map TimePoint.price))
            / (mean (pts.map TimePoint.price) : ℚ) * 100 ∧
      0 ≤ rep.price_volatility := by
  have hne : pts ≠ [] := by
    intro h
    rw [h] at hlen
    norm_num at hlen
  refine ⟨_, analyze_token_health_eq token_id pts hne, rfl, ?_⟩
  have hm : (0:ℝ) < ((mean (pts.map TimePoint.price) : ℚ) : ℝ) := by
    exact_mod_cast hmean
  positivity

/-- Claim C3, witness. At prices `[1, 3]` the report exists, its volatility is
`sqrt 2 / 2 * 100`, and it is nonnegative. -/
theorem C3_witness :
    ∃ rep, analyze_token_health "hex" (some [⟨0, 1, 4⟩, ⟨1, 3, 4⟩]) = some rep ∧
      rep.price_volatility
        = Real.sqrt (svar (([⟨0, 1, 4⟩, ⟨1, 3, 4⟩] : List TimePoint).map TimePoint.price))
            / (mean (([⟨0, 1, 4⟩, ⟨1, 3, 4⟩] : List TimePoint).map TimePoint.price) : ℚ)
            * 100 ∧
      0 ≤ rep.price_volatility :=
  C3_volatility "hex" [⟨0, 1, 4⟩, ⟨1, 3, 4⟩] (by norm_num)
    (by norm_num [mean])

/-- Claim C4, counterexample. The claim says `latest_transaction` is the
maximum-timestamp entry for *every* ordering of the input.  On the unsorted
list `[ts 10, ts 50]` the code's `transactions.iloc[0]` returns the `ts 10`
entry, while the maximum-timestamp entry is the `ts 50` one. -/
theorem C4_counterexample :
    (check_wallet_activity "0xabc"
        (some [⟨"a", 1, "x", "y", 10⟩, ⟨"b", 2, "u", "v", 50⟩]) 0).map
        WalletActivitySummary.latest_transaction
      = some ⟨"a", 1, "x", "y", 10⟩ ∧
    latestByTimestamp [⟨"a", 1, "x", "y", 10⟩, ⟨"b", 2, "u", "v", 50⟩]
      = some ⟨"b", 2, "u", "v", 50⟩ ∧
    (⟨"a", 1, "x", "y", 10⟩ : Transaction) ≠ ⟨"b", 2, "u", "v", 50⟩ := by
  refine ⟨by decide, by decide, by decide⟩

/-- Auxiliary: the fold inside `latestByTimestamp` never replaces a current
best whose timestamp already dominates the rest of the list. -/
theorem latestByTimestamp_foldl_fixed (l : List Transaction) :
    ∀ best : Transaction, (∀ x ∈ l, x.timeStamp ≤ best.timeStamp) →
      l.foldl (fun acc tx =>
        match acc with
        | none => some tx
        | some b => if b.timeStamp < tx.timeStamp then some tx else some b)
        (some best) = some best := by
  induction l with
  | nil => intro best _; rfl
  | cons y l ih =>
    intro best h
    have hy : y.timeStamp ≤ best.timeStamp := h y (List.mem_cons_self y l)
    simp only [List.foldl_cons]
    rw [if_neg (not_lt.mpr hy)]
    exact ih best (fun x hx => h x (List.mem_cons_of_mem _ hx))

/-- Claim C4, amended. `latest_transaction` is simply the *first* entry of the
input list, whatever its timestamps; this agrees with the
maximum-timestamp-first-occurrence rule exactly when the input is already
sorted newest-first (non-strictly descending timestamps), which is what the
source assumes of its data source. -/
theorem C4_latest_is_head (wallet_address : String) (tx : Transaction)
    (ts : List Transaction) (threshold : ℚ) :
    ∃ s, check_wallet_activity wallet_address (some (tx :: ts)) threshold
        = some s ∧
      s.latest_transaction = tx ∧
      (List.Pairwise (fun a b => b.timeStamp ≤ a.timeStamp) (tx :: ts) →
        latestByTimestamp (tx :: ts) = some tx) := by
  refine ⟨_, rfl, rfl, ?_⟩
  intro hs
  have hall : ∀ x ∈ ts, x.timeStamp ≤ tx.timeStamp :=
    (List.pairwise_cons.mp hs).1
  show List.foldl _ none (tx :: ts) = some tx
  simp only [List.foldl_cons]
  exact latestByTimestamp_foldl_fixed ts tx hall

/-- Claim C4, witness. On a list sorted newest-first the head is also the
maximum-timestamp entry. -/
theorem C4_witness :
    latestByTimestamp [⟨"a", 1, "x", "y", 50⟩, ⟨"b", 1, "x", "y", 10⟩]
      = some ⟨"a", 1, "x", "y", 50⟩ := by
  obtain ⟨s, _, _, hsorted⟩ :=
    C4_latest_is_head "0xabc" ⟨"a", 1, "x", "y", 50⟩ [⟨"b", 1, "x", "y", 10⟩] 0
  exact hsorted (by decide)

/-- Claim C7, counterexample. The claim says an empty fetched result is never
stored and the caller gets an explicit no-data signal.  In the code a 200
response is cached unconditionally: fetching an empty series stores `[]`
under the key and returns it, and a subsequent call returns the cached empty
series *without* fetching again. -/
theorem C7_counterexample :
    get_token_data [] "hex" 30 "usd" (.success [])
      = (some [], [("hex_30_usd", [])], true) ∧
    get_token_data [("hex_30_usd", [])] "hex" 30 "usd" (.success [⟨0, 1, 1⟩])
      = (some [], [("hex_30_usd", [])], false) := by
  refine ⟨by decide, by decide⟩

/-- Claim C7, amended. On a hit the cached series is returned without invoking
the fetch.  On a miss where the fetch *fails* (non-200 / exception), nothing
is stored, the caller gets `None`, and a repeat call fetches again.  On a
miss where the fetch *succeeds*, the result — empty or not — is always
stored and returned, and a repeat call for the same key returns exactly that
stored series without fetching. -/
theorem C7_cache (cache : List (String × List TimePoint))
    (token_id : String) (days : ℕ) (vs_currency : String) :
    (∀ v, cache.lookup (cacheKey token_id days vs_currency) = some v →
      ∀ fetch, get_token_data cache token_id days vs_currency fetch
        = (some v, cache, false)) ∧
    (cache.lookup (cacheKey token_id days vs_currency) = none →
      get_token_data cache token_id days vs_currency .failure
        = (none, cache, true)) ∧
    (cache.lookup (cacheKey token_id days vs_currency) = none →
      ∀ fetch₂, (get_token_data
        (get_token_data cache token_id days vs_currency .failure).2.1
        token_id days vs_currency fetch₂).2.2 = true) ∧
    (cache.lookup (cacheKey token_id days vs_currency) = none → ∀ data,
      get_token_data cache token_id days vs_currency (.success data)
        = (some data,
           (cacheKey token_id days vs_currency, data) :: cache, true) ∧
      ∀ fetch₂, get_token_data
          ((cacheKey token_id days vs_currency, data) :: cache)
          token_id days vs_currency fetch₂
        = (some data,
           (cacheKey token_id days vs_currency, data) :: cache, false)) := by
  refine ⟨?_, ?_, ?_, ?_⟩
  · intro v hv fetch
    simp [get_token_data, hv]
  · intro hmiss
    simp [get_token_data, hmiss]
  · intro hmiss fetch₂
    simp only [get_token_data, hmiss]
    cases fetch₂ <;> simp [hmiss]
  · intro hmiss data
    constructor
    · simp [get_token_data, hmiss]
    · intro fetch₂
      simp [get_token_data]

/-- Claim C7, witness. A failed fetch on an empty cache stores nothing and a
repeat call fetches again; a hit returns the cached value with no fetch. -/
theorem C7_witness :
    (([("hex_30_usd", [⟨0, 1, 1⟩])] : List (String × List TimePoint)).lookup
          (cacheKey "hex" 30 "usd")
        = some [⟨0, 1, 1⟩] → ∀ fetch,
      get_token_data [("hex_30_usd", [⟨0, 1, 1⟩])] "hex" 30 "usd" fetch
        = (some [⟨0, 1, 1⟩], [("hex_30_usd", [⟨0, 1, 1⟩])], false)) ∧
    (([] : List (String × List TimePoint)).lookup (cacheKey "hex" 30 "usd")
        = none →
      get_token_data [] "hex" 30 "usd" .failure = (none, [], true)) ∧
    get_token_data [] "hex" 30 "usd" .failure = (none, [], true) :=
  ⟨(C7_cache [("hex_30_usd", [⟨0, 1, 1⟩])] "hex" 30 "usd").1
      ([⟨0, 1, 1⟩] : List TimePoint),
   (C7_cache [] "hex" 30 "usd").2.1,
   (C7_cache [] "hex" 30 "usd").2.1 (by decide)⟩

/-- Shape of the report `check_token_sustainability` produces on any
non-empty series. -/
theorem check_token_sustainability_eq (tax_rates roi_expectations :
    String → Option ℚ) (token_id : String) (estimate_supply : Bool)
    (pts : List TimePoint) (hne : pts ≠ []) :
    check_token_sustainability tax_rates roi_expectations token_id
        estimate_supply (some pts)
      = some (check_sustainability token_id (mean (pts.map TimePoint.volume))
          ((tax_rates token_id).getD (1/20))
          (if estimate_supply then mean (pts.map TimePoint.volume) * 10
            else 10000000)
          ((roi_expectations token_id).getD (1/100))) := by
  simp [check_token_sustainability, hne]

/-- Claim C9. Under the default supply estimation
(`total_supply_value = avg_daily_volume × 10`), for every series with
positive mean volume and positive configured ROI the sustainability ratio is
`tax_rate / (10 × daily_roi)` — the volume cancels, so the data series is
irrelevant; with the default `tax_rate = 0.05` and `daily_roi = 0.01` the
ratio is always exactly `1/2` and the token is always judged unsustainable. -/
theorem C9_default_estimation_ratio (tax_rates roi_expectations :
    String → Option ℚ) (token_id : String) (pts : List TimePoint)
    (hne : pts ≠ []) (hvol : 0 < mean (pts.map TimePoint.volume))
    (hroi : 0 < (roi_expectations token_id).getD (1/100)) :
    ∃ rep, check_token_sustainability tax_rates roi_expectations token_id true
        (some pts) = some rep ∧
      rep.sustainability_ratio
        = .fin ((tax_rates token_id).getD (1/20)
            / (10 * (roi_expectations token_id).getD (1/100))) ∧
      ((tax_rates token_id).getD (1/20) = 1/20 →
        (roi_expectations token_id).getD (1/100) = 1/100 →
        rep.sustainability_ratio = .fin (1/2) ∧ rep.is_sustainable = false) := by
  refine ⟨_, check_token_sustainability_eq tax_rates roi_expectations token_id
    true pts hne, ?_, ?_⟩
  · set avg := mean (pts.map TimePoint.volume) with havg
    set τ := (tax_rates token_id).getD (1/20) with hτ
    set ρ := (roi_expectations token_id).getD (1/100) with hρ
    have hreq : (0:ℚ) < avg * 10 * ρ := by positivity
    simp only [check_sustainability, if_true]
    rw [if_pos hreq]
    congr 1
    rw [mul_assoc]
    exact mul_div_mul_left τ (10 * ρ) (ne_of_gt hvol)
  · intro htax hroi'
    set avg := mean (pts.map TimePoint.volume) with havg
    constructor
    · have hreq : (0:ℚ) < avg * 10 * (1/100) := by positivity
      simp only [check_sustainability, if_true, htax, hroi']
      rw [if_pos hreq]
      congr 1
      rw [mul_assoc]
      rw [mul_div_mul_left _ _ (ne_of_gt hvol)]
      norm_num
    · simp only [check_sustainability, if_true, htax, hroi']
      rw [decide_eq_false_iff_not]
      intro habs
      nlinarith

/-- Claim C9, witness. A one-point series with volume 2 and the default
configuration yields ratio `1/2` and an unsustainable verdict. -/
theorem C9_witness :
    ∃ rep, check_token_sustainability (fun _ => none) (fun _ => none) "hex" true
        (some [⟨0, 1, 2⟩]) = some rep ∧
      rep.sustainability_ratio
        = .fin (((fun _ => none : String → Option ℚ) "hex").getD (1/20)
            / (10 * ((fun _ => none : String → Option ℚ) "hex").getD (1/100))) ∧
      (((fun _ => none : String → Option ℚ) "hex").getD (1/20) = 1/20 →
        ((fun _ => none : String → Option ℚ) "hex").getD (1/100) = 1/100 →
        rep.sustainability_ratio = .fin (1/2) ∧ rep.is_sustainable = false) :=
  C9_default_estimation_ratio (fun _ => none) (fun _ => none) "hex" [⟨0, 1, 2⟩]
    (by simp) (by norm_num [mean]) (by norm_num)

/-- Auxiliary inclusion–exclusion count for two Boolean filters:
`|p| + |q| + |neither| = |l| + |both|`. -/
theorem filter_length_add (p q : Transaction → Bool) (l : List Transaction) :
    (l.filter p).length + (l.filter q).length
        + (l.filter (fun x => !(p x) && !(q x))).length
      = l.length + (l.filter (fun x => p x && q x)).length := by
  induction l with
  | nil => rfl
  | cons a l ih =>
    simp only [List.filter_cons]
    cases hp : p a <;> cases hq : q a <;> simp [hp, hq] <;> omega

/-- Claim C10. A self-transfer — a transaction whose `from` and `to` both equal
the subject wallet (case-insensitively) — is a member of both the incoming
and the outgoing filtered lists; the counts satisfy
`incoming + outgoing + #uninvolved = total + #self-transfers` (so the two
counts can exceed the total exactly by the excess of self-transfers over
uninvolved rows), and the two counts partition the list (they sum to the
total with no transaction counted twice) iff there is no self-transfer and
every transaction involves the subject wallet. -/
theorem C10_self_transfer_counting (wallet_address : String)
    (txs : List Transaction) (threshold : ℚ) (s : WalletActivitySummary)
    (hs : check_wallet_activity wallet_address (some txs) threshold = some s) :
    (∀ tx ∈ txs, pyLower tx.from_address = pyLower wallet_address →
      pyLower tx.to_address = pyLower wallet_address →
      tx ∈ txs.filter (fun t => pyLower t.to_address = pyLower wallet_address) ∧
      tx ∈ txs.filter (fun t => pyLower t.from_address = pyLower wallet_address)) ∧
    s.incoming_transactions + s.outgoing_transactions
        + (txs.filter (fun t =>
            !(decide (pyLower t.to_address = pyLower wallet_address))
            && !(decide (pyLower t.from_address = pyLower wallet_address)))).length
      = s.total_transactions
        + (txs.filter (fun t =>
            decide (pyLower t.to_address = pyLower wallet_address)
            && decide (pyLower t.from_address = pyLower wallet_address))).length ∧
    ((s.incoming_transactions + s.outgoing_transactions = s.total_transactions ∧
        txs.filter (fun t =>
            decide (pyLower t.to_address = pyLower wallet_address)
            && decide (pyLower t.from_address = pyLower wallet_address)) = [])
      ↔ ((∀ tx ∈ txs, ¬(pyLower tx.to_address = pyLower wallet_address ∧
            pyLower tx.from_address = pyLower wallet_address)) ∧
          ∀ tx ∈ txs, pyLower tx.to_address = pyLower wallet_address ∨
            pyLower tx.from_address = pyLower wallet_address)) := by
  have hfields : s.incoming_transactions
        = (txs.filter (fun t =>
            pyLower t.to_address = pyLower wallet_address)).length ∧
      s.outgoing_transactions
        = (txs.filter (fun t =>
            pyLower t.from_address = pyLower wallet_address)).length ∧
      s.total_transactions = txs.length := by
    cases txs with
    | nil => simp [check_wallet_activity] at hs
    | cons a ts =>
      simp only [check_wallet_activity, Option.some.injEq] at hs
      rw [← hs]
      exact ⟨rfl, rfl, rfl⟩
  obtain ⟨hinc, hout, htot⟩ := hfields
  have hident := filter_length_add
    (fun t => decide (pyLower t.to_address = pyLower wallet_address))
    (fun t => decide (pyLower t.from_address = pyLower wallet_address)) txs
  refine ⟨?_, ?_, ?_⟩
  · intro tx htx hfrom hto
    exact ⟨List.mem_filter.mpr ⟨htx, by simp [hto]⟩,
      List.mem_filter.mpr ⟨htx, by simp [hfrom]⟩⟩
  · rw [hinc, hout, htot]
    exact hident
  · constructor
    · rintro ⟨hsum, hboth⟩
      have hboth' : ∀ tx ∈ txs,
          ¬(pyLower tx.to_address = pyLower wallet_address ∧
            pyLower tx.from_address = pyLower wallet_address) := by
        intro tx htx
        have := List.filter_eq_nil_iff.mp hboth tx htx
        simpa using this
      refine ⟨hboth', ?_⟩
      have hzero : (txs.filter (fun t =>
          !(decide (pyLower t.to_address = pyLower wallet_address))
          && !(decide (pyLower t.from_address = pyLower wallet_address)))).length
          = 0 := by
        have hS : (txs.filter (fun t =>
            decide (pyLower t.to_address = pyLower wallet_address)
            && decide (pyLower t.from_address = pyLower wallet_address))).length
            = 0 := by
          rw [hboth]
          rfl
        rw [hinc, hout, htot] at hsum
        omega
      have hnil := List.length_eq_zero.mp hzero
      intro tx htx
      have := List.filter_eq_nil_iff.mp hnil tx htx
      by_contra hcon
      push_neg at hcon
      simp [hcon.1, hcon.2] at this
    · rintro ⟨hnoself, hinv⟩
      have hbothnil : txs.filter (fun t =>
          decide (pyLower t.to_address = pyLower wallet_address)
          && decide (pyLower t.from_address = pyLower wallet_address)) = [] := by
        apply List.filter_eq_nil_iff.mpr
        intro tx htx
        have := hnoself tx htx
        simp only [Bool.and_eq_true, decide_eq_true_eq]
        exact fun h => this h
      have hneithernil : txs.filter (fun t =>
          !(decide (pyLower t.to_address = pyLower wallet_address))
          && !(decide (pyLower t.from_address = pyLower wallet_address))) = [] := by
        apply List.filter_eq_nil_iff.mpr
        intro tx htx
        have := hinv tx htx
        simp only [Bool.and_eq_true, Bool.not_eq_true', decide_eq_false_iff_not]
        intro h
        rcases this with h1 | h1
        · exact absurd h1 h.1
        · exact absurd h1 h.2
      refine ⟨?_, hbothnil⟩
      rw [hbothnil] at hident
      rw [hneithernil] at hident
      simp only [List.length_nil, add_zero] at hident
      rw [hinc, hout, htot]
      exact hident

/-- Claim C10, witness. A single self-transfer (`from "w"`, `to "W"`, subject
wallet `"W"`) is counted in both directions: the counting identity reads
`1 + 1 + 0 = 1 + 1`, so incoming + outgoing exceeds the total. -/
theorem C10_witness :
    (1 : ℕ) + 1 + (([⟨"a", 1, "w", "W", 5⟩] : List Transaction).filter (fun t =>
        !(decide (pyLower t.to_address = pyLower "W"))
        && !(decide (pyLower t.from_address = pyLower "W")))).length
      = 1 + (([⟨"a", 1, "w", "W", 5⟩] : List Transaction).filter (fun t =>
        decide (pyLower t.to_address = pyLower "W")
        && decide (pyLower t.from_address = pyLower "W"))).length := by
  have h := (C10_self_transfer_counting "W" [⟨"a", 1, "w", "W", 5⟩] 0
    ⟨"W", 1, 1, 1, 1, ⟨"a", 1, "w", "W", 5⟩⟩ (by decide)).2.1
  exact h

/-- Auxiliary: folding `pyadd` over a list of finite-or-`+inf` values yields
`+inf` as soon as the accumulator is `+inf` or `+inf` occurs in the list. -/
theorem foldl_pyadd_pinf (l : List PyVal) :
    ∀ acc : PyVal,
      (∀ x ∈ l, x = PyVal.pinf ∨ ∃ q, x = PyVal.fin q) →
      (acc = PyVal.pinf ∨ ∃ q, acc = PyVal.fin q) →
      (acc = PyVal.pinf ∨ PyVal.pinf ∈ l) →
      l.foldl PyVal.pyadd acc = PyVal.pinf := by
  induction l with
  | nil =>
    intro acc _ _ hc
    rcases hc with h | h
    · simpa using h
    · simp at h
  | cons y l ih =>
    intro acc hall hacc hc
    have hy := hall y (List.mem_cons_self y l)
    simp only [List.foldl_cons]
    apply ih (PyVal.pyadd acc y)
      (fun x hx => hall x (List.mem_cons_of_mem _ hx))
    · rcases hacc with ha | ⟨qa, ha⟩ <;> rcases hy with hb | ⟨qb, hb⟩ <;>
        subst ha <;> subst hb
      · exact Or.inl rfl
      · exact Or.inl rfl
      · exact Or.inl rfl
      · exact Or.inr ⟨qa + qb, rfl⟩
    · rcases hc with ha | hmem
      · subst ha
        rcases hy with hb | ⟨qb, hb⟩ <;> subst hb <;> exact Or.inl rfl
      · rcases List.mem_cons.mp hmem with hy' | hmem'
        · subst hy'
          rcases hacc with ha | ⟨qa, ha⟩ <;> subst ha <;> exact Or.inl rfl
        · exact Or.inr hmem'

/-- Auxiliary: the ecosystem score expression evaluates to `+inf` whenever the
collected score list consists of finite-or-`+inf` entries and contains
`+inf`. -/
theorem score_pinf_of_mem (scores : List PyVal)
    (hall : ∀ x ∈ scores, x = PyVal.pinf ∨ ∃ q, x = PyVal.fin q)
    (hmem : PyVal.pinf ∈ scores) :
    (if scores = [] then PyVal.fin 0
      else (PyVal.pysum scores).pydivq scores.length) = PyVal.pinf := by
  rw [if_neg (List.ne_nil_of_mem hmem)]
  have hsum : PyVal.pysum scores = PyVal.pinf :=
    foldl_pyadd_pinf scores (PyVal.fin 0) hall (Or.inr ⟨0, rfl⟩) (Or.inr hmem)
  rw [hsum]
  rfl

/-- Claim C1, counterexample. One token whose series has all-zero volumes:
`required_payouts = avg_volume × 10 × roi = 0`, so the sustainability ratio is
`+inf`; Python's `inf > 0` is `True`, so the code *includes* the infinite
ratio and the ecosystem `sustainability_score` is `+inf` — not `0` as the
claim demands. -/
theorem C1_counterexample :
    (analyze_multi_token_ecosystem (fun _ => none) (fun _ => none)
        (fun _ => some [⟨0, 1, 0⟩, ⟨1, 1, 0⟩])
        ["finvesta"]).sustainability_score = PyVal.pinf ∧
    (check_token_sustainability (fun _ => none) (fun _ => none) "finvesta" true
        (some [⟨0, 1, 0⟩, ⟨1, 1, 0⟩])).map SustainabilityReport.required_payouts
      = some 0 := by
  have h1 : check_token_sustainability (fun _ => none) (fun _ => none)
      "finvesta" true (some [⟨0, 1, 0⟩, ⟨1, 1, 0⟩])
      = some (check_sustainability "finvesta" 0 (1/20) 0 (1/100)) := by
    rw [check_token_sustainability_eq _ _ _ _ _ (by simp)]
    norm_num [mean]
  constructor
  · simp only [analyze_multi_token_ecosystem, List.filterMap_cons,
      List.filterMap_nil, h1]
    norm_num [check_sustainability, PyVal.pygt, PyVal.pysum, PyVal.pyadd,
      PyVal.pydivq]
  · rw [h1]
    norm_num [check_sustainability]

/-- Auxiliary inversion: a successful `check_token_sustainability` call came
from a non-empty series and is the `check_sustainability` report over its
mean volume. -/
theorem check_token_sustainability_inv (tax_rates roi_expectations :
    String → Option ℚ) (token_id : String) (estimate_supply : Bool)
    (data : Option (List TimePoint)) (rep : SustainabilityReport)
    (h : check_token_sustainability tax_rates roi_expectations token_id
      estimate_supply data = some rep) :
    ∃ pts, data = some pts ∧ pts ≠ [] ∧
      rep = check_sustainability token_id (mean (pts.map TimePoint.volume))
        ((tax_rates token_id).getD (1/20))
        (if estimate_supply then mean (pts.map TimePoint.volume) * 10
          else 10000000)
        ((roi_expectations token_id).getD (1/100)) := by
  cases data with
  | none => simp [check_token_sustainability] at h
  | some pts =>
    by_cases hne : pts = []
    · rw [hne] at h
      simp [check_token_sustainability] at h
    · rw [check_token_sustainability_eq _ _ _ _ _ hne] at h
      injection h with h'
      exact ⟨pts, rfl, hne, h'.symm⟩

/-- Auxiliary: whenever `required_payouts ≤ 0` the ratio branch yields
`float('inf')`. -/
theorem check_sustainability_ratio_pinf (token_id : String)
    (v τ σ ρ : ℚ) (h : σ * ρ ≤ 0) :
    (check_sustainability token_id v τ σ ρ).sustainability_ratio = .pinf := by
  simp only [check_sustainability]
  rw [if_neg (not_lt.mpr h)]

/-- Claim C1, amended. The ecosystem `sustainability_score` is the mean of the
`sustainability_ratio` over tokens whose ratio compares `> 0` — a filter that
*includes* `+inf` (Python's `inf > 0` is `True`) rather than excluding
non-finite ratios.  Consequently, if any successfully evaluated token has
`required_payouts = 0` the score is `+inf` (in particular, when *every*
evaluated token has `required_payouts = 0` the score is `+inf`, not `0`); the
score is `0` exactly in the claimed sense only when no evaluated token has a
ratio comparing `> 0`. -/
theorem C1_sustainability_score (tax_rates roi_expectations :
    String → Option ℚ) (env : String → Option (List TimePoint))
    (token_ids : List String) :
    ((∀ t ∈ token_ids, ∀ rep,
        check_token_sustainability tax_rates roi_expectations t true (env t)
          = some rep → rep.sustainability_ratio.pygt 0 = false) →
      (analyze_multi_token_ecosystem tax_rates roi_expectations env
        token_ids).sustainability_score = .fin 0) ∧
    (∀ t ∈ token_ids, ∀ rep,
      check_token_sustainability tax_rates roi_expectations t true (env t)
        = some rep → rep.required_payouts = 0 →
      (analyze_multi_token_ecosystem tax_rates roi_expectations env
        token_ids).sustainability_score = .pinf) := by
  constructor
  · intro hnone
    simp only [analyze_multi_token_ecosystem]
    split_ifs with hif
    · rfl
    · exfalso
      apply hif
      rw [List.filterMap_eq_nil_iff]
      intro t ht
      cases hc : check_token_sustainability tax_rates roi_expectations t true
          (env t) with
      | none => simp [hc]
      | some rep => simp [hc, hnone t ht rep hc]
  · intro t ht rep hrep hreq
    obtain ⟨pts, hdata, hne, hrepeq⟩ :=
      check_token_sustainability_inv _ _ _ _ _ _ hrep
    have hreq' : (if true then mean (pts.map TimePoint.volume) * 10
        else 10000000) * (roi_expectations t).getD (1/100) = 0 := by
      rw [hrepeq] at hreq
      exact hreq
    have hratio : rep.sustainability_ratio = .pinf := by
      rw [hrepeq]
      exact check_sustainability_ratio_pinf _ _ _ _ _ (le_of_eq hreq')
    simp only [analyze_multi_token_ecosystem]
    apply score_pinf_of_mem
    · intro x hx
      obtain ⟨u, hu, hfu⟩ := List.mem_filterMap.mp hx
      revert hfu
      cases hcu : check_token_sustainability tax_rates roi_expectations u true
          (env u) with
      | none => simp
      | some srep =>
        intro hfu
        simp only at hfu
        split_ifs at hfu with hpos
        · injection hfu with hfu'
          cases hr : srep.sustainability_ratio with
          | fin q => exact Or.inr ⟨q, by rw [← hfu', hr]⟩
          | pinf => exact Or.inl (by rw [← hfu', hr])
          | ninf => rw [hr] at hpos; simp [PyVal.pygt] at hpos
          | nan => rw [hr] at hpos; simp [PyVal.pygt] at hpos
    · apply List.mem_filterMap.mpr
      exact ⟨t, ht, by simp [hrep, hratio, PyVal.pygt]⟩

/-- Claim C1, witness. With no data for any token, no score qualifies and the
ecosystem sustainability score is 0. -/
theorem C1_witness :
    (analyze_multi_token_ecosystem (fun _ => none) (fun _ => none)
        (fun _ => none) ["hex"]).sustainability_score = PyVal.fin 0 :=
  (C1_sustainability_score (fun _ => none) (fun _ => none) (fun _ => none)
    ["hex"]).1
    (fun t _ rep hrep => by simp [check_token_sustainability] at hrep)
